import Mathlib

/-!
# api/webhook.js: PPM webhook to Nookal blocked appointment

A shallow embedding of the serverless handler and its four helpers
(`mapPractitionerToNookal`, `formatDateForNookal`, `formatTimeForNookal`,
`calculateDuration`).

Conventions of the embedding:

* JavaScript exceptions are explicit: an operation that may throw returns
  `Except JsError _`, and `try { .. } catch { .. }` is `tryCatch`.
* The `Date` built-in is not code of this module.  What the string parser
  accepts is engine-defined, so it is a field of `Host`; the parts of `Date`
  fixed by ECMAScript (`toISOString`, `toTimeString`, NaN propagation) are
  written out.
* A time value is an integral number of milliseconds since the epoch, or NaN
  (`none`).  Arithmetic on time values is exact integer arithmetic.
* Payload field values are a string, `null` or absent (`undefined`), as in the
  documented payload; `req.body` itself is absent, `null`, a payload object, or
  any other value.
-/

namespace Webhook

/-! ## JavaScript values and exceptions -/

/-- A thrown JavaScript error object: its constructor name and `message`. -/
structure JsError where
  name : String
  message : String
deriving DecidableEq, Repr

/-- A payload field value: absent, `null`, or a string. -/
inductive JsVal where
  | undefined
  | null
  | str (s : String)
deriving DecidableEq, Repr

/-- ToBoolean: `undefined`, `null` and the empty string are falsy. -/
def JsVal.truthy : JsVal → Bool
  | .str s => decide (s ≠ "")
  | _ => false

/-- The operator `a || b`. -/
def JsVal.or (a b : JsVal) : JsVal :=
  if a.truthy then a else b

/-- ToString, as applied by a template literal. -/
def JsVal.toStr : JsVal → String
  | .undefined => "undefined"
  | .null => "null"
  | .str s => s

/-- The statement `try { body } catch (error) { handler }`. -/
def tryCatch {α : Type} (body : Except JsError α) (handler : JsError → Except JsError α) :
    Except JsError α :=
  match body with
  | .ok v => .ok v
  | .error e => handler e

/-! ## The `Date` built-in -/

/-- The host the module runs on: the engine's date-string parser and the local
time zone.  `parse s` is the time value of `new Date(s)` (`none` for an Invalid
Date); `localTZA t` is the offset of local time from UTC, in milliseconds, at
the time value `t`; `tzName` is the zone name printed by `toTimeString`. -/
structure Host where
  parse : String → Option Int
  localTZA : Int → Int
  tzName : String

/-- The time value of `new Date(v)` for a payload value. -/
def newDate (h : Host) : JsVal → Option Int
  | .str s => h.parse s
  | .null => some 0
  | .undefined => none

/-- The decimal digit of `d % 10`. -/
def digitChar (d : Nat) : Char :=
  Char.ofNat (48 + d % 10)

/-- The last `w` decimal digits of `n`, zero padded. -/
def padDigits : Nat → Nat → List Char
  | 0, _ => []
  | w + 1, n => padDigits w (n / 10) ++ [digitChar n]

/-- Year, month and day of the proleptic Gregorian calendar for a day number
counted from 1970-01-01. -/
def civilFromDays (days : Int) : Int × Int × Int :=
  let z := days + 719468
  let era := z / 146097
  let doe := z - era * 146097
  let yoe := (doe - doe / 1460 + doe / 36524 - doe / 146096) / 365
  let doy := doe - (365 * yoe + yoe / 4 - yoe / 100)
  let mp := (5 * doy + 2) / 153
  let d := doy - (153 * mp + 2) / 5 + 1
  let m := if mp < 10 then mp + 3 else mp - 9
  let y := yoe + era * 400 + (if m ≤ 2 then 1 else 0)
  (y, m, d)

/-- The year of an ISO string: four digits for 0..9999, otherwise a sign and
six digits. -/
def isoYear (y : Int) : List Char :=
  if 0 ≤ y ∧ y ≤ 9999 then padDigits 4 y.toNat
  else if 0 ≤ y then '+' :: padDigits 6 y.toNat
  else '-' :: padDigits 6 (-y).toNat

/-- The date part `YYYY-MM-DD` of `toISOString`, in UTC. -/
def isoDate (t : Int) : List Char :=
  let ymd := civilFromDays (t / 86400000)
  isoYear ymd.1 ++ '-' :: padDigits 2 ymd.2.1.toNat ++ '-' :: padDigits 2 ymd.2.2.toNat

/-- The time part `HH:mm:ss.sss` of `toISOString`, in UTC. -/
def isoTime (t : Int) : List Char :=
  padDigits 2 ((t / 3600000) % 24).toNat ++ ':' :: padDigits 2 ((t / 60000) % 60).toNat ++
    ':' :: padDigits 2 ((t / 1000) % 60).toNat ++ '.' :: padDigits 3 (t % 1000).toNat

/-- Method `Date.prototype.toISOString`: throws a RangeError on an Invalid Date. -/
def toISOString : Option Int → Except JsError String
  | none => .error ⟨"RangeError", "Invalid time value"⟩
  | some t => .ok (String.mk (isoDate t ++ 'T' :: isoTime t ++ ['Z']))

/-- Method `Date.prototype.toTimeString`: local time, then the zone offset as
a sign and the hours and minutes of its absolute value, then the zone name;
the text `Invalid Date` (no exception) on an Invalid Date. -/
def toTimeString (h : Host) : Option Int → String
  | none => "Invalid Date"
  | some t =>
    let offset := h.localTZA t
    let l := t + offset
    let absOffset := offset.natAbs
    String.mk (padDigits 2 ((l / 3600000) % 24).toNat ++ ':' :: padDigits 2 ((l / 60000) % 60).toNat ++
      ':' :: padDigits 2 ((l / 1000) % 60).toNat ++ " GMT".data ++
      (if 0 ≤ offset then '+' else '-') :: padDigits 2 ((absOffset / 3600000) % 24) ++
      padDigits 2 ((absOffset / 60000) % 60) ++
      " (".data ++ h.tzName.data ++ [')'])

/-- The expression `s.split(sep)[0]`: the text before the first `sep`. -/
def splitHead (sep : Char) (s : String) : String :=
  String.mk (s.data.takeWhile (fun c => c != sep))

/-- The expression `s.slice(a, b)` for `0 ≤ a ≤ b`. -/
def slice (s : String) (a b : Nat) : String :=
  String.mk ((s.data.drop a).take (b - a))

/-- Subtraction of two time values; NaN propagates. -/
def jsSub (a b : Option Int) : Option Int :=
  match a, b with
  | some x, some y => some (x - y)
  | _, _ => none

/-- The expression `Math.round(x / 60000)`: nearest integer, ties upward; NaN
stays NaN. -/
def roundMinutes : Option Int → Option Int
  | some x => some ((x + 30000) / 60000)
  | none => none

/-- The comparison `x > 0`, false for NaN. -/
def jsPositive : Option Int → Bool
  | some x => decide (0 < x)
  | none => false

/-! ## The helpers of api/webhook.js -/

/-- Function `formatDateForNookal` (lines 115-125). -/
def formatDateForNookal (h : Host) (dateString : JsVal) : Except JsError JsVal :=
  if !dateString.truthy then .ok .null
  else
    tryCatch
      (do
        let date := newDate h dateString
        let iso ← toISOString date
        pure (.str (splitHead 'T' iso)))
      (fun _ => .ok .null)

/-- Function `formatTimeForNookal` (lines 128-138). -/
def formatTimeForNookal (h : Host) (timeString : JsVal) : Except JsError JsVal :=
  if !timeString.truthy then .ok .null
  else
    tryCatch
      (do
        let date := h.parse ("1970-01-01 " ++ timeString.toStr)
        pure (.str (slice (toTimeString h date) 0 5)))
      (fun _ => .ok .null)

/-- Function `calculateDuration` (lines 141-154). -/
def calculateDuration (h : Host) (startTime endTime : JsVal) : Except JsError Int :=
  if !startTime.truthy || !endTime.truthy then .ok 60
  else
    tryCatch
      (do
        let start := h.parse ("1970-01-01 " ++ startTime.toStr)
        let endDate := h.parse ("1970-01-01 " ++ endTime.toStr)
        let diffMs := jsSub endDate start
        let diffMins := roundMinutes diffMs
        pure (if jsPositive diffMins then diffMins.getD 0 else 60))
      (fun _ => .ok 60)

/-- The object literal `practitionerMap` (lines 104-109): its own properties. -/
def practitionerMap : List (String × String) :=
  [("Dr. Smith", "nookal_practitioner_id_1"),
   ("Dr. Johnson", "nookal_practitioner_id_2"),
   ("Dr. Brown", "nookal_practitioner_id_3")]

/-- The property names every object literal inherits from `Object.prototype`.
Each holds a function, except `__proto__`, whose getter yields the prototype
object; all of them are truthy. -/
def objectPrototypeProps : List String :=
  ["constructor", "__defineGetter__", "__defineSetter__", "hasOwnProperty",
   "__lookupGetter__", "__lookupSetter__", "isPrototypeOf", "propertyIsEnumerable",
   "toString", "valueOf", "__proto__", "toLocaleString"]

/-- The value of a property read on an object literal whose own properties are
strings: no such property, an own string, or the built-in inherited under
that name. -/
inductive PropValue where
  | undefined
  | str (s : String)
  | inherited (name : String)
deriving DecidableEq, Repr

/-- ToBoolean on a property value: functions and objects are truthy. -/
def PropValue.truthy : PropValue → Bool
  | .undefined => false
  | .str s => decide (s ≠ "")
  | .inherited _ => true

/-- The expression `obj[key]` on an object literal: own properties first, then
the prototype chain. -/
def getProp (own : List (String × String)) (key : String) : PropValue :=
  match own.lookup key with
  | some v => .str v
  | none => if key ∈ objectPrototypeProps then .inherited key else .undefined

/-- Function `mapPractitionerToNookal` (lines 102-112). -/
def mapPractitionerToNookal (practitionerName : JsVal) : PropValue :=
  let found := getProp practitionerMap practitionerName.toStr
  if found.truthy then found else .str "default_practitioner_id"

/-! ## The handler -/

/-- The `customData` mapping of the payload. -/
structure CustomData where
  appointment_id : JsVal
  start_date : JsVal
  start_time : JsVal
  end_date : JsVal
  end_time : JsVal
  contact_name : JsVal
  contact_email : JsVal
  practitioner_name : JsVal
deriving DecidableEq, Repr

/-- The `contact` mapping of the payload. -/
structure Contact where
  full_name : JsVal
  email : JsVal
deriving DecidableEq, Repr

/-- The empty object `{}` read as `customData`: every property is absent. -/
def CustomData.empty : CustomData :=
  ⟨.undefined, .undefined, .undefined, .undefined, .undefined, .undefined, .undefined, .undefined⟩

/-- The empty object `{}` read as `contact`. -/
def Contact.empty : Contact :=
  ⟨.undefined, .undefined⟩

/-- An inbound payload object; a sub-mapping is `none` when the property is
absent or `null`. -/
structure Payload where
  customData : Option CustomData
  contact : Option Contact
deriving DecidableEq, Repr

/-- The value of `req.body`: absent, `null` (no body sent), a payload object,
or any other value (a string, number, boolean or array, given by its text),
which has no `customData` and no `contact` property. -/
inductive Body where
  | undefined
  | null
  | object (p : Payload)
  | other (text : String)
deriving DecidableEq, Repr

/-- The inbound request. -/
structure Request where
  method : String
  body : Body
deriving DecidableEq, Repr

/-- The process environment: `NOOKAL_API_KEY` is `none` when the variable is unset. -/
structure Env where
  NOOKAL_API_KEY : Option String
deriving DecidableEq, Repr

/-- The object `appointmentData` (lines 18-27). -/
structure AppointmentData where
  appointment_id : JsVal
  start_date : JsVal
  start_time : JsVal
  end_date : JsVal
  end_time : JsVal
  contact_name : JsVal
  contact_email : JsVal
  practitioner_name : JsVal
deriving DecidableEq, Repr

/-- The object `nookalAppointment` (lines 40-58). -/
structure NookalAppointment where
  practitioner_id : PropValue
  appointment_date : JsVal
  appointment_time : JsVal
  duration : Int
  appointment_type : String
  client_name : String
  notes : String
  status : String
deriving DecidableEq, Repr

/-- One call of `fetch` (lines 63-70). -/
structure FetchCall where
  url : String
  method : String
  authorization : String
  contentType : String
  body : NookalAppointment
deriving DecidableEq, Repr

/-- A decoded JSON document. -/
inductive Json where
  | null
  | bool (b : Bool)
  | num (n : Int)
  | str (s : String)
  | arr (items : List Json)
  | obj (members : List (String × Json))

/-- The downstream response once received: `ok` is the status being 2xx,
`text` the result of `text()`, `json` the result of `json()`, which throws a
SyntaxError when the body is not JSON. -/
structure FetchResponse where
  ok : Bool
  text : String
  json : Except JsError Json

/-- What the outbound call comes to: the request or the reading of the body
fails with a thrown error, or a response is received. -/
inductive FetchOutcome where
  | rejected (e : JsError)
  | answered (r : FetchResponse)

/-- The JSON bodies the handler sends. -/
inductive ResponseBody where
  | error (error : String)
  | errorDetails (error : String) (details : String)
  | errorMessage (error : String) (message : String)
  | success (success : Bool) (message : String) (ppm_appointment_id : JsVal)
      (nookal_response : Json)

/-- One `res.status(s).json(b)`. -/
structure HttpResponse where
  status : Nat
  body : ResponseBody

/-- What one invocation of the handler did: the responses it sent and the
outbound calls it made, in order. -/
structure Run where
  responses : List HttpResponse
  calls : List FetchCall

/-- Lines 18-27: the object `appointmentData` built from `customData` and
`contact`. -/
def mapAppointmentData (customData : CustomData) (contact : Contact) : AppointmentData :=
  { appointment_id := customData.appointment_id
    start_date := customData.start_date
    start_time := customData.start_time
    end_date := customData.end_date
    end_time := customData.end_time
    contact_name := customData.contact_name.or contact.full_name
    contact_email := customData.contact_email.or contact.email
    practitioner_name := customData.practitioner_name.or (.str "Not specified") }

/-- Lines 14-27: reading `customData` and `contact` off `req.body` (each
replaced by `{}` when absent) and building `appointmentData`.  Reading a
property of `undefined` or `null` throws a TypeError; on any other value that
is not an object both reads give `undefined`. -/
def extractAppointmentData (body : Body) : Except JsError AppointmentData :=
  match body with
  | .undefined =>
    .error ⟨"TypeError", "Cannot read properties of undefined (reading 'customData')"⟩
  | .null =>
    .error ⟨"TypeError", "Cannot read properties of null (reading 'customData')"⟩
  | .object p =>
    .ok (mapAppointmentData (p.customData.getD CustomData.empty) (p.contact.getD Contact.empty))
  | .other _ =>
    .ok (mapAppointmentData CustomData.empty Contact.empty)

/-- Lines 40-58: building `nookalAppointment`. -/
def buildNookalAppointment (h : Host) (appointmentData : AppointmentData) :
    Except JsError NookalAppointment := do
  let appointment_date ← formatDateForNookal h appointmentData.start_date
  let appointment_time ← formatTimeForNookal h appointmentData.start_time
  let duration ← calculateDuration h appointmentData.start_time appointmentData.end_time
  pure
    { practitioner_id := mapPractitionerToNookal appointmentData.practitioner_name
      appointment_date := appointment_date
      appointment_time := appointment_time
      duration := duration
      appointment_type := "BLOCKED"
      client_name := "PPM Booking - " ++ appointmentData.contact_name.toStr
      notes := "Blocked due to PPM appointment ID: " ++ appointmentData.appointment_id.toStr
      status := "confirmed" }

/-- The negation `!NOOKAL_API_KEY`: true when the variable is unset or empty. -/
def keyMissing (env : Env) : Bool :=
  match env.NOOKAL_API_KEY with
  | none => true
  | some k => decide (k = "")

/-- The call of `fetch` at lines 63-70. -/
def nookalCall (key : String) (nookalAppointment : NookalAppointment) : FetchCall :=
  { url := "https://au-apiv3.nookal.com/appointments"
    method := "POST"
    authorization := "Bearer " ++ key
    contentType := "application/json"
    body := nookalAppointment }

/-- The `try` block of the handler (lines 10-91): the outbound calls made, and
either the response it returns or the exception it throws. -/
def handlerTry (h : Host) (env : Env) (req : Request) (net : FetchOutcome) :
    List FetchCall × Except JsError HttpResponse :=
  match extractAppointmentData req.body with
  | .error e => ([], .error e)
  | .ok appointmentData =>
    if keyMissing env then
      ([], .ok ⟨500, .error "Nookal API key not configured"⟩)
    else
      match buildNookalAppointment h appointmentData with
      | .error e => ([], .error e)
      | .ok nookalAppointment =>
        let call := nookalCall (env.NOOKAL_API_KEY.getD "") nookalAppointment
        match net with
        | .rejected e => ([call], .error e)
        | .answered nookalResponse =>
          if !nookalResponse.ok then
            ([call], .ok ⟨500, .errorDetails "Failed to create Nookal appointment" nookalResponse.text⟩)
          else
            match nookalResponse.json with
            | .error e => ([call], .error e)
            | .ok nookalResult =>
              ([call], .ok ⟨200, .success true "Appointment blocked in Nookal successfully"
                appointmentData.appointment_id nookalResult⟩)

/-- Function `handler` (lines 4-99).  The result is `.error` only if an
exception escapes the function. -/
def handler (h : Host) (env : Env) (req : Request) (net : FetchOutcome) : Except JsError Run :=
  if req.method ≠ "POST" then
    .ok ⟨[⟨405, .error "Method not allowed"⟩], []⟩
  else
    match handlerTry h env req net with
    | (calls, .ok response) => .ok ⟨[response], calls⟩
    | (calls, .error error) =>
      .ok ⟨[⟨500, .errorMessage "Internal server error" error.message⟩], calls⟩

/-! ## Sample hosts, requests and downstream answers -/

/-- A host in the zone Australia/Brisbane (UTC+10, no daylight saving), with
the engine's parse results for the strings used below. -/
def brisbaneHost : Host where
  parse := fun s =>
    if s = "July 16, 2025" then some 1752588000000
    else if s = "1970-01-01 7:00 AM" then some (-10800000)
    else if s = "1970-01-01 9:00 AM" then some (-3600000)
    else if s = "1970-01-01 10:00 AM" then some 0
    else none
  localTZA := fun _ => 36000000
  tzName := "Australian Eastern Standard Time"

/-- A host in UTC, with the engine's parse results for the strings used below. -/
def utcHost : Host where
  parse := fun s =>
    if s = "July 16, 2025" then some 1752624000000
    else if s = "1970-01-01 7:00 AM" then some 25200000
    else if s = "1970-01-01 9:00 AM" then some 32400000
    else if s = "1970-01-01 10:00 AM" then some 36000000
    else none
  localTZA := fun _ => 0
  tzName := "Coordinated Universal Time"

/-- A POST request with a full `customData`. -/
def sampleRequest : Request :=
  { method := "POST"
    body := .object
      { customData := some
          { appointment_id := .str "ppm-42"
            start_date := .str "July 16, 2025"
            start_time := .str "9:00 AM"
            end_date := .str "July 16, 2025"
            end_time := .str "10:00 AM"
            contact_name := .str "Ann Lee"
            contact_email := .str "ann@example.org"
            practitioner_name := .str "Dr. Smith" }
        contact := none } }

/-- A POST request sent without a body. -/
def bodylessRequest : Request :=
  { method := "POST", body := .null }

/-- A POST request whose body is the text hello. -/
def textRequest : Request :=
  { method := "POST", body := .other "hello" }

/-- A downstream answer 401 with a text body. -/
def sampleRejection : FetchOutcome :=
  .answered ⟨false, "Unauthorized", .error ⟨"SyntaxError", "Unexpected token U in JSON at position 0"⟩⟩

/-- A downstream answer 200 with a JSON body. -/
def sampleSuccess : FetchOutcome :=
  .answered ⟨true, "[7]", .ok (.arr [.num 7])⟩

/-- A downstream answer 200 whose body is the text OK, which is not JSON. -/
def sampleUndecodable : FetchOutcome :=
  .answered ⟨true, "OK", .error ⟨"SyntaxError", "Unexpected token O in JSON at position 0"⟩⟩

/-! ## Notions used in the statements -/

/-- The time value of the Date `calculateDuration` builds for a time string. -/
def parseTime (h : Host) (v : JsVal) : Option Int :=
  h.parse ("1970-01-01 " ++ v.toStr)

/-- The identifier the practitioner table gives a name: the mapped identifier
for the three keys, the default identifier otherwise. -/
def tableIdentifier (name : String) : String :=
  if name = "Dr. Smith" then "nookal_practitioner_id_1"
  else if name = "Dr. Johnson" then "nookal_practitioner_id_2"
  else if name = "Dr. Brown" then "nookal_practitioner_id_3"
  else "default_practitioner_id"

/-- The property `f` of the payload's `customData`, absent when the payload has
no `customData`. -/
def customField (p : Payload) (f : CustomData → JsVal) : JsVal :=
  match p.customData with
  | some c => f c
  | none => .undefined

/-- The property `f` of the payload's `contact`, absent when the payload has no
`contact`. -/
def contactField (p : Payload) (f : Contact → JsVal) : JsVal :=
  match p.contact with
  | some c => f c
  | none => .undefined

/-- The `appointment_id` of the request's `customData`, absent when the request
has none. -/
def requestAppointmentId (req : Request) : JsVal :=
  match req.body with
  | .object p => customField p CustomData.appointment_id
  | _ => .undefined

/-- Whether `req.body` is `undefined` or `null`. -/
def Body.nullish : Body → Bool
  | .undefined => true
  | .null => true
  | _ => false

/-- Whether the outbound call came to a response with a success status. -/
def FetchOutcome.successStatus : FetchOutcome → Bool
  | .answered r => r.ok
  | .rejected _ => false

/-! ## Lemmas on the built-ins -/

theorem truthy_str {s : String} (hs : s ≠ "") : (JsVal.str s).truthy = true := by
  simp [JsVal.truthy, hs]

/-- The quotient `Math.round(x / 60000)` is the nearest integer to `x / 60000`,
the upper one at a tie. -/
theorem roundMinutes_nearest (x : Int) :
    x - 30000 < 60000 * ((x + 30000) / 60000) ∧ 60000 * ((x + 30000) / 60000) ≤ x + 30000 := by
  constructor <;> omega

theorem formatTimeForNookal_ok (h : Host) (timeString : JsVal) :
    ∃ v, formatTimeForNookal h timeString = .ok v := by
  unfold formatTimeForNookal
  split
  · exact ⟨_, rfl⟩
  · exact ⟨_, rfl⟩

theorem calculateDuration_ok (h : Host) (startTime endTime : JsVal) :
    ∃ n, calculateDuration h startTime endTime = .ok n := by
  unfold calculateDuration
  split
  · exact ⟨_, rfl⟩
  · exact ⟨_, rfl⟩

theorem formatDateForNookal_ok (h : Host) (dateString : JsVal) :
    ∃ v, formatDateForNookal h dateString = .ok v := by
  unfold formatDateForNookal
  split
  · exact ⟨_, rfl⟩
  · cases hd : toISOString (newDate h dateString) with
    | error e => exact ⟨.null, by simp [hd, tryCatch, bind, Except.bind]⟩
    | ok iso =>
      exact ⟨.str (splitHead 'T' iso), by simp [hd, tryCatch, bind, Except.bind, pure, Except.pure]⟩

theorem buildNookalAppointment_ok (h : Host) (a : AppointmentData) :
    ∃ n, buildNookalAppointment h a = .ok n := by
  obtain ⟨d, hd⟩ := formatDateForNookal_ok h a.start_date
  obtain ⟨t, ht⟩ := formatTimeForNookal_ok h a.start_time
  obtain ⟨m, hm⟩ := calculateDuration_ok h a.start_time a.end_time
  simp only [buildNookalAppointment, hd, ht, hm, bind, Except.bind, pure, Except.pure]
  exact ⟨_, rfl⟩

/-! ## formatTimeForNookal -/

/-- C1 (code defect): for a non-empty time string whose Date is invalid,
`formatTimeForNookal` does not return null: `toTimeString` does not throw on an
Invalid Date, it yields the text "Invalid Date", whose first five characters
"Inval" are returned. -/
theorem formatTimeForNookal_unparseable (h : Host) (s : String) (hs : s ≠ "")
    (hp : h.parse ("1970-01-01 " ++ s) = none) :
    formatTimeForNookal h (.str s) = .ok (.str "Inval") := by
  simp only [formatTimeForNookal, truthy_str hs, JsVal.toStr, hp, toTimeString]
  rfl

/-- C1 at the time string "not a time" on the Brisbane host: the parse fails
and the value sent downstream is the malformed string "Inval", not null. -/
theorem formatTimeForNookal_unparseable_witness :
    brisbaneHost.parse ("1970-01-01 " ++ "not a time") = none ∧
    formatTimeForNookal brisbaneHost (.str "not a time") = .ok (.str "Inval") ∧
    formatTimeForNookal brisbaneHost (.str "not a time") ≠ .ok .null :=
  ⟨rfl, formatTimeForNookal_unparseable brisbaneHost "not a time" (by decide) rfl,
    by rw [formatTimeForNookal_unparseable brisbaneHost "not a time" (by decide) rfl]; simp⟩

/-! ## calculateDuration -/

/-- C3: `calculateDuration` never throws and returns a positive integer: 60
when either input is null, absent or empty or fails to parse; otherwise, with
`m` the nearest integer to the difference end minus start in minutes (the
upper one at a tie), `m` when `m` is strictly positive and 60 when it is zero
or negative. -/
theorem calculateDuration_positive (h : Host) (startTime endTime : JsVal) :
    ∃ n : Int, calculateDuration h startTime endTime = .ok n ∧ 0 < n ∧
      ((startTime.truthy = false ∨ endTime.truthy = false ∨
          parseTime h startTime = none ∨ parseTime h endTime = none) → n = 60) ∧
      (∀ a b : Int, startTime.truthy = true → endTime.truthy = true →
          parseTime h startTime = some a → parseTime h endTime = some b →
          ∃ m : Int, ((b - a) - 30000 < 60000 * m ∧ 60000 * m ≤ (b - a) + 30000) ∧
            (0 < m → n = m) ∧ (m ≤ 0 → n = 60)) := by
  unfold parseTime
  cases hs : startTime.truthy <;> cases he : endTime.truthy <;>
    simp only [calculateDuration, hs, he, Bool.not_false, Bool.not_true, Bool.or_true,
      Bool.true_or, Bool.or_self, if_true]
  · exact ⟨60, rfl, by decide, fun _ => rfl, by simp⟩
  · exact ⟨60, rfl, by decide, fun _ => rfl, by simp⟩
  · exact ⟨60, rfl, by decide, fun _ => rfl, by simp⟩
  · cases ha : h.parse ("1970-01-01 " ++ startTime.toStr) with
    | none =>
      refine ⟨60, ?_, by decide, fun _ => rfl, by simp⟩
      cases hb : h.parse ("1970-01-01 " ++ endTime.toStr) <;> rfl
    | some a =>
      cases hb : h.parse ("1970-01-01 " ++ endTime.toStr) with
      | none => exact ⟨60, rfl, by decide, fun _ => rfl, by simp⟩
      | some b =>
        by_cases hm : 0 < (b - a + 30000) / 60000
        · refine ⟨(b - a + 30000) / 60000, ?_, hm, ?_, ?_⟩
          · simp [tryCatch, jsSub, roundMinutes, jsPositive, hm, pure, Except.pure]
          · simp
          · intro a' b' _ _ haa hbb
            cases haa; cases hbb
            exact ⟨(b - a + 30000) / 60000, roundMinutes_nearest _, fun _ => rfl,
              fun hle => absurd hm (not_lt.mpr hle)⟩
        · refine ⟨60, ?_, by decide, fun _ => rfl, ?_⟩
          · simp [tryCatch, jsSub, roundMinutes, jsPositive, hm, pure, Except.pure]
          · intro a' b' _ _ haa hbb
            cases haa; cases hbb
            exact ⟨(b - a + 30000) / 60000, roundMinutes_nearest _,
              fun hpos => absurd hpos hm, fun _ => rfl⟩

/-- C3 on the examples of the specification, on the Brisbane host: three
hours apart gives 180 (derived from the statement of C3 alone), one hour apart
gives 60, equal times give 60, end before start gives 60, a null start gives
60 and an unparseable end gives 60. -/
theorem calculateDuration_examples :
    calculateDuration brisbaneHost (.str "7:00 AM") (.str "10:00 AM") = .ok 180 ∧
    calculateDuration brisbaneHost (.str "9:00 AM") (.str "10:00 AM") = .ok 60 ∧
    calculateDuration brisbaneHost (.str "9:00 AM") (.str "9:00 AM") = .ok 60 ∧
    calculateDuration brisbaneHost (.str "10:00 AM") (.str "9:00 AM") = .ok 60 ∧
    calculateDuration brisbaneHost .null (.str "9:00 AM") = .ok 60 ∧
    calculateDuration brisbaneHost (.str "9:00 AM") (.str "noon-ish") = .ok 60 := by
  refine ⟨?_, rfl, rfl, rfl, rfl, rfl⟩
  obtain ⟨n, hn, _, _, hround⟩ :=
    calculateDuration_positive brisbaneHost (.str "7:00 AM") (.str "10:00 AM")
  obtain ⟨m, ⟨hlo, hhi⟩, hpos, _⟩ := hround (-10800000) 0 rfl rfl rfl rfl
  have hm : m = 180 := by omega
  rw [hn, hpos (by omega), hm]

/-! ## formatDateForNookal -/

theorem digitChar_ne_T (d : Nat) : digitChar d ≠ 'T' := by
  unfold digitChar
  have hlt : d % 10 < 10 := Nat.mod_lt _ (by decide)
  generalize d % 10 = k at hlt
  interval_cases k <;> decide

theorem padDigits_ne_T (w n : Nat) : ∀ c ∈ padDigits w n, c ≠ 'T' := by
  induction w generalizing n with
  | zero => intro c hc; simp [padDigits] at hc
  | succ w ih =>
    intro c hc
    simp only [padDigits, List.mem_append, List.mem_singleton] at hc
    rcases hc with hc | hc
    · exact ih _ c hc
    · rw [hc]; exact digitChar_ne_T n

theorem isoYear_ne_T (y : Int) : ∀ c ∈ isoYear y, c ≠ 'T' := by
  intro c hc
  unfold isoYear at hc
  split at hc
  · exact padDigits_ne_T _ _ c hc
  · split at hc
    · rcases List.mem_cons.mp hc with hc | hc
      · rw [hc]; decide
      · exact padDigits_ne_T _ _ c hc
    · rcases List.mem_cons.mp hc with hc | hc
      · rw [hc]; decide
      · exact padDigits_ne_T _ _ c hc

theorem isoDate_ne_T (t : Int) : ∀ c ∈ isoDate t, c ≠ 'T' := by
  intro c hc
  unfold isoDate at hc
  rcases List.mem_append.mp hc with hc | hc
  · rcases List.mem_append.mp hc with hc | hc
    · exact isoYear_ne_T _ c hc
    · rcases List.mem_cons.mp hc with hc | hc
      · rw [hc]; decide
      · exact padDigits_ne_T _ _ c hc
  · rcases List.mem_cons.mp hc with hc | hc
    · rw [hc]; decide
    · exact padDigits_ne_T _ _ c hc

theorem takeWhile_ne_append (sep : Char) (pre post : List Char)
    (hpre : ∀ c ∈ pre, c ≠ sep) :
    (pre ++ sep :: post).takeWhile (fun c => c != sep) = pre := by
  induction pre with
  | nil => simp [List.takeWhile]
  | cons x xs ih =>
    have hx : x ≠ sep := hpre x (List.mem_cons_self _ _)
    have hxs : ∀ c ∈ xs, c ≠ sep := fun c hc => hpre c (List.mem_cons_of_mem _ hc)
    have hb : (x != sep) = true := by simp [hx]
    rw [List.cons_append, List.takeWhile_cons]
    simp only [hb, if_true, ih hxs]

/-- For a string the engine parses, `formatDateForNookal` returns the date of
the parsed instant read in UTC. -/
theorem formatDateForNookal_parsed (h : Host) (s : String) (t : Int) (hs : s ≠ "")
    (hp : h.parse s = some t) :
    formatDateForNookal h (.str s) = .ok (.str (String.mk (isoDate t))) := by
  simp only [formatDateForNookal, truthy_str hs, newDate, hp, toISOString, splitHead]
  simp [tryCatch, bind, Except.bind, pure, Except.pure,
    takeWhile_ne_append 'T' (isoDate t) (isoTime t ++ ['Z']) (isoDate_ne_T t)]

/-- C8: `formatDateForNookal` never throws; it returns null when the input is
absent, null or the empty string, and it returns null when the input is a
string that the engine does not parse as a date. -/
theorem formatDateForNookal_total (h : Host) (dateString : JsVal) :
    (∃ v, formatDateForNookal h dateString = .ok v) ∧
    ((dateString = .undefined ∨ dateString = .null ∨ dateString = .str "") →
      formatDateForNookal h dateString = .ok .null) ∧
    (∀ s, dateString = .str s → h.parse s = none →
      formatDateForNookal h dateString = .ok .null) := by
  have hnull : ∀ s, h.parse s = none → formatDateForNookal h (.str s) = .ok .null := by
    intro s hp
    by_cases hs : s = ""
    · subst hs; rfl
    · simp only [formatDateForNookal, truthy_str hs, newDate, hp, toISOString]
      rfl
  refine ⟨formatDateForNookal_ok h dateString, ?_, ?_⟩
  · rintro (hd | hd | hd) <;> subst hd <;> rfl
  · intro s hd hp
    subst hd
    exact hnull s hp

/-- C8 on the examples of the specification: null gives null, and the string
"not a date", which the engine does not parse, gives null. -/
theorem formatDateForNookal_total_examples :
    formatDateForNookal brisbaneHost .null = .ok .null ∧
    formatDateForNookal brisbaneHost (.str "not a date") = .ok .null :=
  ⟨((formatDateForNookal_total brisbaneHost .null).2.1 (Or.inr (Or.inl rfl))),
    ((formatDateForNookal_total brisbaneHost (.str "not a date")).2.2 "not a date" rfl rfl)⟩

/-- C4 (code defect): on a host ten hours east of UTC, the string
"July 16, 2025" parses as the local midnight that starts 16 July 2025 (local
date 2025-07-16, local time 00:00:00), and `formatDateForNookal` returns the
previous day, "2025-07-15": the Date is parsed in local time and printed in
UTC. -/
theorem formatDateForNookal_east_of_utc :
    brisbaneHost.parse "July 16, 2025" = some 1752588000000 ∧
    String.mk (isoDate (1752588000000 + brisbaneHost.localTZA 1752588000000)) = "2025-07-16" ∧
    slice (toTimeString brisbaneHost (some 1752588000000)) 0 8 = "00:00:00" ∧
    formatDateForNookal brisbaneHost (.str "July 16, 2025") = .ok (.str "2025-07-15") :=
  ⟨rfl, by decide, by decide, rfl⟩

/-- On a host in UTC the same string gives "2025-07-16". -/
theorem formatDateForNookal_utc :
    formatDateForNookal utcHost (.str "July 16, 2025") = .ok (.str "2025-07-16") := rfl

/-! ## mapPractitionerToNookal -/

/-- C2 (code defect): for the name "constructor" the lookup finds the function
inherited from `Object.prototype`, which is truthy, so `mapPractitionerToNookal`
returns that function and not 'default_practitioner_id'.  For every name that
is not a property of `Object.prototype` the result is the table's identifier. -/
theorem mapPractitionerToNookal_inherited :
    mapPractitionerToNookal (.str "constructor") = .inherited "constructor" ∧
    mapPractitionerToNookal (.str "constructor") ≠ .str "default_practitioner_id" ∧
    mapPractitionerToNookal (.str "Not specified") = .str "default_practitioner_id" ∧
    (∀ name : String, name ∉ objectPrototypeProps →
      mapPractitionerToNookal (.str name) = .str (tableIdentifier name)) := by
  refine ⟨rfl, by decide, rfl, ?_⟩
  intro name hname
  by_cases h1 : name = "Dr. Smith"
  · subst h1; rfl
  by_cases h2 : name = "Dr. Johnson"
  · subst h2; rfl
  by_cases h3 : name = "Dr. Brown"
  · subst h3; rfl
  have b1 : (name == "Dr. Smith") = false := by simp [h1]
  have b2 : (name == "Dr. Johnson") = false := by simp [h2]
  have b3 : (name == "Dr. Brown") = false := by simp [h3]
  simp [mapPractitionerToNookal, getProp, practitionerMap, List.lookup, JsVal.toStr,
    tableIdentifier, h1, h2, h3, b1, b2, b3, hname, PropValue.truthy]

/-! ## Field extraction -/

/-- C10: for every payload object, whichever of `customData` and `contact` are
missing, field extraction does not throw; `contact_name` is
`customData.contact_name` when truthy, otherwise `contact.full_name`, otherwise
absent; likewise `contact_email`; `practitioner_name` is
`customData.practitioner_name` when truthy and otherwise 'Not specified'; the
other five fields are copied from `customData`. -/
theorem extractAppointmentData_fallbacks (p : Payload) :
    ∃ a : AppointmentData, extractAppointmentData (.object p) = .ok a ∧
      a.contact_name =
        (if (customField p CustomData.contact_name).truthy
          then customField p CustomData.contact_name
          else contactField p Contact.full_name) ∧
      a.contact_email =
        (if (customField p CustomData.contact_email).truthy
          then customField p CustomData.contact_email
          else contactField p Contact.email) ∧
      a.practitioner_name =
        (if (customField p CustomData.practitioner_name).truthy
          then customField p CustomData.practitioner_name
          else .str "Not specified") ∧
      a.appointment_id = customField p CustomData.appointment_id ∧
      a.start_date = customField p CustomData.start_date ∧
      a.start_time = customField p CustomData.start_time ∧
      a.end_date = customField p CustomData.end_date ∧
      a.end_time = customField p CustomData.end_time := by
  obtain ⟨cd, ct⟩ := p
  refine ⟨_, rfl, ?_⟩
  cases cd <;> cases ct <;>
    simp [mapAppointmentData, customField, contactField, JsVal.or, CustomData.empty,
      Contact.empty, JsVal.truthy]

/-- C10 on payloads with both sub-mappings missing, with only `contact`, and
with both present and an empty `customData.contact_name`; the last conjunct is
read off the statement of C10. -/
theorem extractAppointmentData_examples :
    (extractAppointmentData (.object ⟨none, none⟩)).toOption.map
        (fun a => (a.contact_name, a.contact_email, a.practitioner_name)) =
      some (.undefined, .undefined, .str "Not specified") ∧
    (extractAppointmentData (.object ⟨none, some ⟨.str "Ann Lee", .str "ann@example.org"⟩⟩)).toOption.map
        (fun a => (a.contact_name, a.contact_email, a.practitioner_name)) =
      some (.str "Ann Lee", .str "ann@example.org", .str "Not specified") ∧
    (extractAppointmentData (.object
        ⟨some { CustomData.empty with contact_name := .str "", contact_email := .str "a@b.c",
                                      practitioner_name := .str "Dr. Smith" },
         some ⟨.str "Ann Lee", .str "ann@example.org"⟩⟩)).toOption.map
        (fun a => (a.contact_name, a.contact_email, a.practitioner_name)) =
      some (.str "Ann Lee", .str "a@b.c", .str "Dr. Smith") ∧
    (∃ a, extractAppointmentData (.object ⟨none, some ⟨.str "Ann Lee", .null⟩⟩) = .ok a ∧
      a.contact_name = .str "Ann Lee" ∧ a.contact_email = .null ∧
      a.practitioner_name = .str "Not specified" ∧ a.appointment_id = .undefined) := by
  refine ⟨rfl, rfl, rfl, ?_⟩
  obtain ⟨a, ha, hname, hemail, hpract, hid, _⟩ :=
    extractAppointmentData_fallbacks ⟨none, some ⟨.str "Ann Lee", .null⟩⟩
  exact ⟨a, ha, hname, hemail, hpract, hid⟩

/-! ## The handler -/

/-- Reading the payload off a body that is neither `undefined` nor `null`
does not throw, and the `appointment_id` read is that of the request's
`customData`. -/
theorem extractAppointmentData_present (req : Request) (hb : req.body.nullish = false) :
    ∃ a, extractAppointmentData req.body = .ok a ∧
      a.appointment_id = requestAppointmentId req := by
  cases hbody : req.body with
  | undefined => simp [hbody, Body.nullish] at hb
  | null => simp [hbody, Body.nullish] at hb
  | object p =>
    refine ⟨_, rfl, ?_⟩
    cases hc : p.customData <;>
      simp [requestAppointmentId, hbody, customField, hc, mapAppointmentData, CustomData.empty]
  | other t =>
    exact ⟨_, rfl, by simp [requestAppointmentId, hbody, mapAppointmentData, CustomData.empty]⟩

/-- The `try` block on a request whose body is `null`: the property read
throws before anything else happens. -/
theorem handlerTry_null (h : Host) (env : Env) (req : Request) (net : FetchOutcome)
    (hb : req.body = .null) :
    handlerTry h env req net =
      ([], .error ⟨"TypeError", "Cannot read properties of null (reading 'customData')"⟩) := by
  simp only [handlerTry, hb, extractAppointmentData]

/-- The `try` block on a request whose body is absent. -/
theorem handlerTry_undefined (h : Host) (env : Env) (req : Request) (net : FetchOutcome)
    (hb : req.body = .undefined) :
    handlerTry h env req net =
      ([], .error
        ⟨"TypeError", "Cannot read properties of undefined (reading 'customData')"⟩) := by
  simp only [handlerTry, hb, extractAppointmentData]

/-- The `try` block on a request whose body is `undefined` or `null` makes no
outbound call and throws. -/
theorem handlerTry_no_body (h : Host) (env : Env) (req : Request) (net : FetchOutcome)
    (hb : req.body.nullish = true) :
    ∃ e, handlerTry h env req net = ([], .error e) := by
  cases hbody : req.body with
  | undefined => exact ⟨_, handlerTry_undefined h env req net hbody⟩
  | null => exact ⟨_, handlerTry_null h env req net hbody⟩
  | object p => simp [hbody, Body.nullish] at hb
  | other t => simp [hbody, Body.nullish] at hb

/-- The `try` block when the credential is missing and the body can be read. -/
theorem handlerTry_key_missing (h : Host) (env : Env) (req : Request) (net : FetchOutcome)
    (hb : req.body.nullish = false) (hk : keyMissing env = true) :
    handlerTry h env req net = ([], .ok ⟨500, .error "Nookal API key not configured"⟩) := by
  obtain ⟨a, ha, _⟩ := extractAppointmentData_present req hb
  simp only [handlerTry, ha, hk, if_true]

/-- The `try` block when the credential is configured and the body can be
read: exactly one outbound call is made and the outcome decides the result. -/
theorem handlerTry_submits (h : Host) (env : Env) (req : Request) (net : FetchOutcome)
    (hb : req.body.nullish = false) (hk : keyMissing env = false) :
    ∃ call, handlerTry h env req net =
      ([call],
        match net with
        | .rejected e => .error e
        | .answered r =>
          if !r.ok then
            .ok ⟨500, .errorDetails "Failed to create Nookal appointment" r.text⟩
          else
            match r.json with
            | .error e => .error e
            | .ok j =>
              .ok ⟨200, .success true "Appointment blocked in Nookal successfully"
                (requestAppointmentId req) j⟩) := by
  obtain ⟨a, ha, hid⟩ := extractAppointmentData_present req hb
  obtain ⟨n, hn⟩ := buildNookalAppointment_ok h a
  refine ⟨nookalCall (env.NOOKAL_API_KEY.getD "") n, ?_⟩
  simp only [handlerTry, ha, hk, hn, hid]
  cases net with
  | rejected e => rfl
  | answered r =>
    cases hok : r.ok
    · simp [hok]
    · cases hj : r.json <;> simp [hok, hj]

/-- Every response the `try` block returns has status 200 or 500. -/
theorem handlerTry_status (h : Host) (env : Env) (req : Request) (net : FetchOutcome)
    (response : HttpResponse) (hr : (handlerTry h env req net).2 = .ok response) :
    response.status = 200 ∨ response.status = 500 := by
  cases hb : req.body.nullish
  · cases hk : keyMissing env
    · obtain ⟨call, hc⟩ := handlerTry_submits h env req net hb hk
      rw [hc] at hr
      cases net with
      | rejected e => simp at hr
      | answered r =>
        cases hok : r.ok
        · simp [hok] at hr
          rw [← hr]; exact Or.inr rfl
        · cases hj : r.json with
          | error e => simp [hok, hj] at hr
          | ok j =>
            simp [hok, hj] at hr
            rw [← hr]; exact Or.inl rfl
    · rw [handlerTry_key_missing h env req net hb hk] at hr
      simp at hr
      rw [← hr]; exact Or.inr rfl
  · obtain ⟨e, he⟩ := handlerTry_no_body h env req net hb
    simp [he] at hr

/-- The handler on a POST request: the `try` block, with a thrown exception
turned into the response 500 'Internal server error'. -/
theorem handler_post (h : Host) (env : Env) (req : Request) (net : FetchOutcome)
    (hm : req.method = "POST") :
    handler h env req net =
      match handlerTry h env req net with
      | (calls, .ok response) => .ok ⟨[response], calls⟩
      | (calls, .error error) =>
        .ok ⟨[⟨500, .errorMessage "Internal server error" error.message⟩], calls⟩ := by
  simp [handler, hm]

/-- The handler on a POST request whose body is `null`. -/
theorem handler_null_body (h : Host) (env : Env) (req : Request) (net : FetchOutcome)
    (hm : req.method = "POST") (hb : req.body = .null) :
    handler h env req net =
      .ok ⟨[⟨500, .errorMessage "Internal server error"
              "Cannot read properties of null (reading 'customData')"⟩], []⟩ := by
  rw [handler_post h env req net hm, handlerTry_null h env req net hb]

/-- The handler on a POST request whose body is absent. -/
theorem handler_undefined_body (h : Host) (env : Env) (req : Request) (net : FetchOutcome)
    (hm : req.method = "POST") (hb : req.body = .undefined) :
    handler h env req net =
      .ok ⟨[⟨500, .errorMessage "Internal server error"
              "Cannot read properties of undefined (reading 'customData')"⟩], []⟩ := by
  rw [handler_post h env req net hm, handlerTry_undefined h env req net hb]

/-! ### C7: one response, no escaping exception -/

/-- C7: for every request and every outcome of the outbound call, the handler
completes without an exception escaping and sends exactly one response; its
status is 405 when the method is not 'POST' and otherwise 200 or 500.  Every
exception raised after the method check yields the response 500 with body
{error: 'Internal server error', message: the exception's message}: the
TypeError of reading `customData` off a null or absent body, the error a
failed outbound call throws, and the error `json()` throws on a body it cannot
decode; and so does whatever else the `try` block throws. -/
theorem handler_always_responds (h : Host) (env : Env) (req : Request) (net : FetchOutcome) :
    ∃ (r : HttpResponse) (calls : List FetchCall),
      handler h env req net = .ok ⟨[r], calls⟩ ∧
      (req.method ≠ "POST" → r.status = 405) ∧
      (req.method = "POST" → r.status = 200 ∨ r.status = 500) ∧
      (req.method = "POST" → req.body = .null →
        r = ⟨500, .errorMessage "Internal server error"
              "Cannot read properties of null (reading 'customData')"⟩) ∧
      (req.method = "POST" → req.body = .undefined →
        r = ⟨500, .errorMessage "Internal server error"
              "Cannot read properties of undefined (reading 'customData')"⟩) ∧
      (∀ e, req.method = "POST" → req.body.nullish = false → keyMissing env = false →
        net = .rejected e →
        r = ⟨500, .errorMessage "Internal server error" e.message⟩) ∧
      (∀ resp e, req.method = "POST" → req.body.nullish = false → keyMissing env = false →
        net = .answered resp → resp.ok = true → resp.json = .error e →
        r = ⟨500, .errorMessage "Internal server error" e.message⟩) ∧
      (∀ e, req.method = "POST" → (handlerTry h env req net).2 = .error e →
        r = ⟨500, .errorMessage "Internal server error" e.message⟩) := by
  by_cases hm : req.method = "POST"
  · have hpost := handler_post h env req net hm
    cases hT : handlerTry h env req net with
    | mk calls res =>
      rw [hT] at hpost
      have hnull : req.body = .null →
          res = .error ⟨"TypeError", "Cannot read properties of null (reading 'customData')"⟩ := by
        intro hb
        rw [handlerTry_null h env req net hb] at hT
        exact (Prod.mk.inj hT).2.symm
      have hundef : req.body = .undefined →
          res = .error
            ⟨"TypeError", "Cannot read properties of undefined (reading 'customData')"⟩ := by
        intro hb
        rw [handlerTry_undefined h env req net hb] at hT
        exact (Prod.mk.inj hT).2.symm
      have hrej : ∀ e, req.body.nullish = false → keyMissing env = false →
          net = .rejected e → res = .error e := by
        intro e hb hk hnet
        obtain ⟨call, hc⟩ := handlerTry_submits h env req net hb hk
        rw [hc, hnet] at hT
        exact (Prod.mk.inj hT).2.symm
      have hdec : ∀ resp e, req.body.nullish = false → keyMissing env = false →
          net = .answered resp → resp.ok = true → resp.json = .error e → res = .error e := by
        intro resp e hb hk hnet hok hj
        obtain ⟨call, hc⟩ := handlerTry_submits h env req net hb hk
        rw [hc, hnet] at hT
        simp only [hok, hj, Bool.not_true] at hT
        exact (Prod.mk.inj hT).2.symm
      cases res with
      | ok response =>
        refine ⟨response, calls, hpost, fun hne => absurd hm hne, fun _ => ?_,
          fun _ hb => ?_, fun _ hb => ?_, fun e _ hb hk hnet => ?_,
          fun resp e _ hb hk hnet hok hj => ?_, fun e _ he => ?_⟩
        · exact handlerTry_status h env req net response (by rw [hT])
        · exact absurd (hnull hb) (by simp)
        · exact absurd (hundef hb) (by simp)
        · exact absurd (hrej e hb hk hnet) (by simp)
        · exact absurd (hdec resp e hb hk hnet hok hj) (by simp)
        · simp at he
      | error err =>
        refine ⟨⟨500, .errorMessage "Internal server error" err.message⟩, calls, hpost,
          fun hne => absurd hm hne, fun _ => Or.inr rfl,
          fun _ hb => ?_, fun _ hb => ?_, fun e _ hb hk hnet => ?_,
          fun resp e _ hb hk hnet hok hj => ?_, fun e _ he => ?_⟩
        · rw [Except.error.inj (hnull hb)]
        · rw [Except.error.inj (hundef hb)]
        · rw [Except.error.inj (hrej e hb hk hnet)]
        · rw [Except.error.inj (hdec resp e hb hk hnet hok hj)]
        · simp at he
          rw [he]
  · refine ⟨⟨405, .error "Method not allowed"⟩, [], ?_, fun _ => rfl, fun h' => absurd h' hm,
      fun h' _ => absurd h' hm, fun h' _ => absurd h' hm, fun e h' _ _ _ => absurd h' hm,
      fun resp e h' _ _ _ _ _ => absurd h' hm, fun e h' _ => absurd h' hm⟩
    simp [handler, hm]

/-- C7 on one request of each kind.  From the statement of C7: a POST without
a body, a network error and an undecodable success body each get the single
response 500 'Internal server error' with the message of the error thrown, and
a GET gets status 405.  By evaluation: a success, a downstream rejection and
the text body give the statuses 200, 500 and 200, one response each. -/
theorem handler_always_responds_examples :
    (∃ calls, handler utcHost ⟨some "secret"⟩ bodylessRequest sampleSuccess =
      .ok ⟨[⟨500, .errorMessage "Internal server error"
              "Cannot read properties of null (reading 'customData')"⟩], calls⟩) ∧
    (∃ calls, handler utcHost ⟨some "secret"⟩ sampleRequest
        (.rejected ⟨"TypeError", "fetch failed"⟩) =
      .ok ⟨[⟨500, .errorMessage "Internal server error" "fetch failed"⟩], calls⟩) ∧
    (∃ calls, handler utcHost ⟨some "secret"⟩ sampleRequest sampleUndecodable =
      .ok ⟨[⟨500, .errorMessage "Internal server error"
              "Unexpected token O in JSON at position 0"⟩], calls⟩) ∧
    (∃ r calls, handler utcHost ⟨some "secret"⟩ { sampleRequest with method := "GET" }
        sampleSuccess = .ok ⟨[r], calls⟩ ∧ r.status = 405) ∧
    (handler utcHost ⟨some "secret"⟩ sampleRequest sampleSuccess).toOption.map
        (fun run => run.responses.map HttpResponse.status) = some [200] ∧
    (handler utcHost ⟨some "secret"⟩ sampleRequest sampleRejection).toOption.map
        (fun run => run.responses.map HttpResponse.status) = some [500] ∧
    (handler utcHost ⟨some "secret"⟩ textRequest sampleSuccess).toOption.map
        (fun run => run.responses.map HttpResponse.status) = some [200] := by
  refine ⟨?_, ?_, ?_, ?_, rfl, rfl, rfl⟩
  · obtain ⟨r, calls, hrun, _, _, hnull, _⟩ :=
      handler_always_responds utcHost ⟨some "secret"⟩ bodylessRequest sampleSuccess
    exact ⟨calls, by rw [hrun, hnull rfl rfl]⟩
  · obtain ⟨r, calls, hrun, _, _, _, _, hrej, _⟩ :=
      handler_always_responds utcHost ⟨some "secret"⟩ sampleRequest
        (.rejected ⟨"TypeError", "fetch failed"⟩)
    exact ⟨calls, by rw [hrun, hrej ⟨"TypeError", "fetch failed"⟩ rfl rfl rfl rfl]⟩
  · obtain ⟨r, calls, hrun, _, _, _, _, _, hdec, _⟩ :=
      handler_always_responds utcHost ⟨some "secret"⟩ sampleRequest sampleUndecodable
    exact ⟨calls, by
      rw [hrun, hdec
        ⟨true, "OK", .error ⟨"SyntaxError", "Unexpected token O in JSON at position 0"⟩⟩
        ⟨"SyntaxError", "Unexpected token O in JSON at position 0"⟩ rfl rfl rfl rfl rfl rfl]⟩
  · obtain ⟨r, calls, hrun, h405, _⟩ :=
      handler_always_responds utcHost ⟨some "secret"⟩ { sampleRequest with method := "GET" }
        sampleSuccess
    exact ⟨r, calls, hrun, h405 (by decide)⟩

/-! ### C5: missing credential -/

/-- C5, as stated, fails on a POST request sent without a body: the credential
is not configured, yet the response body is not
{error: 'Nookal API key not configured'}: reading `customData` off the null
body throws before the credential is checked, and the `catch` block answers
500 'Internal server error'. -/
theorem handler_key_missing_bodyless :
    bodylessRequest.method = "POST" ∧ keyMissing ⟨none⟩ = true ∧
    handler utcHost ⟨none⟩ bodylessRequest sampleSuccess =
      .ok ⟨[⟨500, .errorMessage "Internal server error"
              "Cannot read properties of null (reading 'customData')"⟩], []⟩ ∧
    handler utcHost ⟨none⟩ bodylessRequest sampleSuccess ≠
      .ok ⟨[⟨500, .error "Nookal API key not configured"⟩], []⟩ := by
  refine ⟨rfl, rfl, rfl, ?_⟩
  intro hEq
  have hrun :
      handler utcHost ⟨none⟩ bodylessRequest sampleSuccess =
        .ok ⟨[⟨500, .errorMessage "Internal server error"
                "Cannot read properties of null (reading 'customData')"⟩], []⟩ := rfl
  rw [hrun] at hEq
  simp at hEq

/-- C5, amended: for every POST request, when the credential is not configured
(unset or empty) the handler sends the single response 500 and makes no
outbound call, whatever the outbound call would have come to.  The response
body is {error: 'Nookal API key not configured'} whenever the request body is
neither `null` nor absent (an object, or any other value such as a string);
on a `null` body, and on an absent one, it is
{error: 'Internal server error', message: m} with `m` the message of the
TypeError that reading `customData` off that body throws. -/
theorem handler_key_missing (h : Host) (env : Env) (req : Request) (net : FetchOutcome)
    (hm : req.method = "POST") (hk : keyMissing env = true) :
    (∃ body : ResponseBody, handler h env req net = .ok ⟨[⟨500, body⟩], []⟩) ∧
    (req.body.nullish = false →
      handler h env req net = .ok ⟨[⟨500, .error "Nookal API key not configured"⟩], []⟩) ∧
    (req.body = .null →
      handler h env req net =
        .ok ⟨[⟨500, .errorMessage "Internal server error"
                "Cannot read properties of null (reading 'customData')"⟩], []⟩) ∧
    (req.body = .undefined →
      handler h env req net =
        .ok ⟨[⟨500, .errorMessage "Internal server error"
                "Cannot read properties of undefined (reading 'customData')"⟩], []⟩) := by
  have hpresent : req.body.nullish = false →
      handler h env req net = .ok ⟨[⟨500, .error "Nookal API key not configured"⟩], []⟩ := by
    intro hb
    rw [handler_post h env req net hm, handlerTry_key_missing h env req net hb hk]
  refine ⟨?_, hpresent, handler_null_body h env req net hm, handler_undefined_body h env req net hm⟩
  cases hbody : req.body with
  | undefined => exact ⟨_, handler_undefined_body h env req net hm hbody⟩
  | null => exact ⟨_, handler_null_body h env req net hm hbody⟩
  | object p => exact ⟨_, hpresent (by simp [hbody, Body.nullish])⟩
  | other t => exact ⟨_, hpresent (by simp [hbody, Body.nullish])⟩

/-- C5, amended, with the variable set to the empty string or unset: on the
sample request and on a text body the response is 500
'Nookal API key not configured'; on a POST without a body it is 500
'Internal server error' with the TypeError's message; no outbound call is made. -/
theorem handler_key_missing_witness :
    handler utcHost ⟨some ""⟩ sampleRequest sampleSuccess =
      .ok ⟨[⟨500, .error "Nookal API key not configured"⟩], []⟩ ∧
    handler utcHost ⟨none⟩ textRequest sampleSuccess =
      .ok ⟨[⟨500, .error "Nookal API key not configured"⟩], []⟩ ∧
    handler utcHost ⟨none⟩ bodylessRequest sampleSuccess =
      .ok ⟨[⟨500, .errorMessage "Internal server error"
              "Cannot read properties of null (reading 'customData')"⟩], []⟩ :=
  ⟨(handler_key_missing utcHost ⟨some ""⟩ sampleRequest sampleSuccess rfl rfl).2.1 rfl,
    (handler_key_missing utcHost ⟨none⟩ textRequest sampleSuccess rfl rfl).2.1 rfl,
    (handler_key_missing utcHost ⟨none⟩ bodylessRequest sampleSuccess rfl rfl).2.2.1 rfl⟩

/-! ### C9: downstream rejection -/

/-- C9: for every POST request with the credential configured for which the
outbound call is made and answered with a non-success status, the handler
sends the single response 500 with body
{error: 'Failed to create Nookal appointment', details: d}, where `d` is the
downstream body text unchanged. -/
theorem handler_downstream_rejection (h : Host) (env : Env) (req : Request)
    (net : FetchOutcome) (r : FetchResponse) (run : Run)
    (hm : req.method = "POST") (hk : keyMissing env = false)
    (hrun : handler h env req net = .ok run) (hcall : run.calls ≠ [])
    (hnet : net = .answered r) (hok : r.ok = false) :
    run.responses = [⟨500, .errorDetails "Failed to create Nookal appointment" r.text⟩] := by
  rw [handler_post h env req net hm] at hrun
  cases hb : req.body.nullish
  case true =>
    obtain ⟨e, he⟩ := handlerTry_no_body h env req net hb
    rw [he] at hrun
    simp at hrun
    rw [← hrun] at hcall
    exact absurd rfl hcall
  case false =>
    obtain ⟨call, hc⟩ := handlerTry_submits h env req net hb hk
    rw [hc, hnet] at hrun
    simp [hok] at hrun
    rw [← hrun]

/-- C9 on the sample request answered 401 with the text Unauthorized. -/
theorem handler_downstream_rejection_witness :
    ∃ run, handler utcHost ⟨some "secret"⟩ sampleRequest sampleRejection = .ok run ∧
      run.calls ≠ [] ∧
      run.responses =
        [⟨500, .errorDetails "Failed to create Nookal appointment" "Unauthorized"⟩] :=
  ⟨_, rfl, by simp,
    handler_downstream_rejection utcHost ⟨some "secret"⟩ sampleRequest sampleRejection
      ⟨false, "Unauthorized", .error ⟨"SyntaxError", "Unexpected token U in JSON at position 0"⟩⟩
      _ rfl rfl rfl (by simp) rfl rfl⟩

/-! ### C6: downstream success -/

/-- C6, as stated, fails when the downstream API answers with a success status
and a body that is not JSON: on the sample request answered 200 with the text
OK, the outbound call is made, `json()` throws, and the handler responds 500
'Internal server error', not 200. -/
theorem handler_success_status_undecodable :
    sampleRequest.method = "POST" ∧ keyMissing ⟨some "secret"⟩ = false ∧
    sampleUndecodable.successStatus = true ∧
    ∃ call, handler utcHost ⟨some "secret"⟩ sampleRequest sampleUndecodable =
      .ok ⟨[⟨500, .errorMessage "Internal server error"
              "Unexpected token O in JSON at position 0"⟩], [call]⟩ :=
  ⟨rfl, rfl, rfl, _, rfl⟩

/-- C6, amended: for every POST request with the credential configured for
which the outbound call is made and answered with a success status and a body
that decodes as JSON, the handler sends the single response 200 with
success true, ppm_appointment_id equal to the request's
customData.appointment_id (absent when the request has none), and
nookal_response equal to the decoded downstream body. -/
theorem handler_downstream_success (h : Host) (env : Env) (req : Request)
    (net : FetchOutcome) (r : FetchResponse) (j : Json) (run : Run)
    (hm : req.method = "POST") (hk : keyMissing env = false)
    (hrun : handler h env req net = .ok run) (hcall : run.calls ≠ [])
    (hnet : net = .answered r) (hok : r.ok = true) (hj : r.json = .ok j) :
    run.responses =
      [⟨200, .success true "Appointment blocked in Nookal successfully"
          (requestAppointmentId req) j⟩] := by
  rw [handler_post h env req net hm] at hrun
  cases hb : req.body.nullish
  case true =>
    obtain ⟨e, he⟩ := handlerTry_no_body h env req net hb
    rw [he] at hrun
    simp at hrun
    rw [← hrun] at hcall
    exact absurd rfl hcall
  case false =>
    obtain ⟨call, hc⟩ := handlerTry_submits h env req net hb hk
    rw [hc, hnet] at hrun
    simp [hok, hj] at hrun
    rw [← hrun]

/-- C6, amended, on the sample request answered 200 with the JSON body [7]. -/
theorem handler_downstream_success_witness :
    ∃ run, handler utcHost ⟨some "secret"⟩ sampleRequest sampleSuccess = .ok run ∧
      run.calls ≠ [] ∧
      run.responses =
        [⟨200, .success true "Appointment blocked in Nookal successfully"
            (.str "ppm-42") (.arr [.num 7])⟩] :=
  ⟨_, rfl, by simp,
    handler_downstream_success utcHost ⟨some "secret"⟩ sampleRequest sampleSuccess
      ⟨true, "[7]", .ok (.arr [.num 7])⟩ (.arr [.num 7]) _ rfl rfl rfl (by simp) rfl rfl rfl⟩

end Webhook
